import Mathlib

/-!
Verification of the Voice-Scheduler repository's extraction and submission
pipeline.  The definitions below are shallow embeddings, translated from the
TypeScript sources:

* `Transcribe.*`    — `src/pages/api/transcribe.ts` (`sanitizeInput`,
  `parseContactInfo` and its regex pattern families);
* `SubmitContact.*` — `src/pages/api/submit-contact.ts` (`validateContactData`,
  `sanitizeContactData`, the webhook delivery sequence of `handler`);
* `Workspace.*`     — `src/lib/workspace.ts` (`canUserPerformAction`);
* `TranscribeValidated.*` — the revision of `transcribe.ts` kept at
  `src/unnamed/part_005` (`validateCompanyName` and its pattern 1).

JavaScript regular expressions are embedded as continuation-passing matchers
over `List Char` with explicit ordered backtracking, mirroring the
leftmost-position, alternation-order, greedy/lazy semantics of the JS engine.
-/

namespace VoiceScheduler

/-- The whitespace characters of JavaScript's regex class and of
`String.prototype.trim`, restricted to code points that can occur in this
pipeline (space, tab, LF, CR, VT, FF, NBSP, BOM). -/
def jsWhitespace (c : Char) : Bool :=
  c = ' ' || c = '\t' || c = '\n' || c = '\r' ||
  c = Char.ofNat 11 || c = Char.ofNat 12 || c = Char.ofNat 160 || c = Char.ofNat 65279

/-- JavaScript `\w`: ASCII letters, digits and underscore. -/
def isWordChar (c : Char) : Bool := c.isAlphanum || c = '_'

/-- ASCII letter, i.e. the class `[a-zA-Z]`. -/
def isAsciiLetter (c : Char) : Bool := c.isAlpha

/-- JavaScript `.` (without the `s` flag): any character except a line
terminator. -/
def isDotChar (c : Char) : Bool :=
  !(c = '\n' || c = '\r' || c = Char.ofNat 8232 || c = Char.ofNat 8233)

/-- Case-insensitive character comparison (the `i` flag). -/
def lowerEq (a b : Char) : Bool := a.toLower = b.toLower

/-- Lower-case a string character-wise (JS `toLowerCase` on ASCII input). -/
def lowerStr (s : String) : String := String.mk (s.data.map Char.toLower)

/-- Drop JS whitespace from both ends (JS `String.prototype.trim`). -/
def trimL (l : List Char) : List Char :=
  ((l.dropWhile jsWhitespace).reverse.dropWhile jsWhitespace).reverse

/-- `l` starts with `w` (character-exact). -/
def startsWithL : List Char → List Char → Bool
  | _, [] => true
  | [], _ :: _ => false
  | a :: as, b :: bs => a = b && startsWithL as bs

/-- `w` occurs somewhere in `s` (substring test, JS `String.prototype.includes`). -/
def containsSub : List Char → List Char → Bool
  | s, w =>
    match s with
    | [] => w.isEmpty
    | _ :: rest => startsWithL s w || containsSub rest w

/-- First `some` produced by `f` along `bs`, in order; the ordered-choice
backbone of the regex embedding. -/
def firstSome (f : β → Option α) : List β → Option α
  | [] => none
  | b :: bs =>
    match f b with
    | some a => some a
    | none => firstSome f bs

/-! ### Regex combinators

A matcher piece has type `List Char → (List Char → Option α) → Option α`:
it consumes characters from the front of the input and calls the continuation
with the remainder; `Option` failure triggers backtracking into earlier
choice points, which are ordered exactly as the JS engine orders them. -/

/-- Try the continuation after dropping `i` characters, for each `i` in `is`
in order: the backtracking candidates of a quantifier. -/
def tryDrops (s : List Char) (is : List Nat) (k : List Char → Option α) : Option α :=
  firstSome (fun i => k (s.drop i)) is

/-- Greedy optional single character (`X?`): prefer consuming. -/
def optChar (p : Char → Bool) (s : List Char) (k : List Char → Option α) : Option α :=
  match s with
  | [] => k []
  | c :: rest =>
    if p c then
      match k rest with
      | some a => some a
      | none => k s
    else k s

/-- One mandatory character of class `p`. -/
def reqChar (p : Char → Bool) (s : List Char) (k : List Char → Option α) : Option α :=
  match s with
  | [] => none
  | c :: rest => if p c then k rest else none

/-- Exactly `n` characters of class `p` (`p{n}`). -/
def exactChars (p : Char → Bool) (n : Nat) (s : List Char) (k : List Char → Option α) :
    Option α :=
  if (s.take n).length = n && (s.take n).all p then k (s.drop n) else none

/-- Greedy `p{lo,hi}` (with `hi = none` for an unbounded `+`/`*`): longest
first, backtracking down to `lo`. -/
def greedyRange (p : Char → Bool) (lo : Nat) (hi : Option Nat) (s : List Char)
    (k : List Char → Option α) : Option α :=
  let run := (s.takeWhile p).length
  let m := match hi with | some h => min run h | none => run
  tryDrops s (((List.range (m + 1)).filter (fun i => lo ≤ i)).reverse) k

/-- Lazy `p{lo,}?`: shortest first, growing up to the run length. -/
def lazyRange (p : Char → Bool) (lo : Nat) (s : List Char)
    (k : List Char → Option α) : Option α :=
  let run := (s.takeWhile p).length
  tryDrops s ((List.range (run + 1)).filter (fun i => lo ≤ i)) k

/-- Case-insensitive literal. -/
def litCI (w : List Char) (s : List Char) (k : List Char → Option α) : Option α :=
  if (s.take w.length).length = w.length
      && ((s.take w.length).zip w).all (fun q => lowerEq q.1 q.2) then
    k (s.drop w.length)
  else none

/-- Case-sensitive literal. -/
def litCS (w : List Char) (s : List Char) (k : List Char → Option α) : Option α :=
  if (s.take w.length).length = w.length
      && ((s.take w.length).zip w).all (fun q => q.1 = q.2) then
    k (s.drop w.length)
  else none

/-- Ordered case-insensitive literal alternation `(w1|w2|...)`. -/
def altCI (ws : List (List Char)) (s : List Char) (k : List Char → Option α) : Option α :=
  firstSome (fun w => litCI w s k) ws

/-- Ordered case-sensitive literal alternation. -/
def altCS (ws : List (List Char)) (s : List Char) (k : List Char → Option α) : Option α :=
  firstSome (fun w => litCS w s k) ws

/-- Greedy optional group `(?:X)?` for a compound sub-matcher: try with the
group present first. -/
def optGroup (sub : List Char → (List Char → Option α) → Option α) (s : List Char)
    (k : List Char → Option α) : Option α :=
  match sub s k with
  | some a => some a
  | none => k s

/-- Run a sub-matcher and hand its captured text (the consumed span of `s`)
to the continuation: a capture group. -/
def cap (sub : (u : List Char) → (List Char → Option (α)) → Option (α)) (s : List Char)
    (k : List Char → List Char → Option α) : Option α :=
  sub s (fun rem => k (s.take (s.length - rem.length)) rem)

/-- Leftmost-match scan: try the matcher at every start position, left to
right (the JS engine's position loop). -/
def scanA (m : List Char → Option α) : List Char → Option α
  | [] => m []
  | c :: rest =>
    match m (c :: rest) with
    | some a => some a
    | none => scanA m rest

namespace Transcribe

/-! ### `src/pages/api/transcribe.ts` -/

/-- The structured contact record produced by the Field Extractor
(`interface ContactData`). -/
structure ContactData where
  name : String
  phone : String
  email : String
  company : String
  notes : String
  deriving DecidableEq

/-- Characters removed by the first `replace` of `sanitizeInput`
(HTML/script injection characters `<>'"&`). -/
def isDangerousChar (c : Char) : Bool :=
  c = '<' || c = '>' || c = Char.ofNat 39 || c = Char.ofNat 34 || c = '&'

/-- Characters kept by the second `replace` of `sanitizeInput`
(the class `[\w\s@.-]`). -/
def isKeptChar (c : Char) : Bool :=
  isWordChar c || jsWhitespace c || c = '@' || c = '.' || c = '-'

/-- `sanitizeInput` in its default mode: strip `<>'"&`, keep only
`[\w\s@.-]`, cut at 1000 characters, trim. -/
def sanitizeChars (l : List Char) : List Char :=
  trimL (((l.filter (fun c => !isDangerousChar c)).filter isKeptChar).take 1000)

/-- `sanitizeInput` on a `String`. -/
def sanitizeInputStr (s : String) : String := String.mk (sanitizeChars s.data)

/-- `sanitizeInput` with `preserveEmail = true`: only strip `<>'"&`,
cut at 1000 characters, trim. -/
def sanitizeInputEmailStr (s : String) : String :=
  String.mk (trimL ((s.data.filter (fun c => !isDangerousChar c)).take 1000))

/-! #### Phone extraction -/

/-- The delimiter class `[-.\s]` of the numeric phone pattern. -/
def isPhoneDelim (c : Char) : Bool := c = '-' || c = '.' || jsWhitespace c

/-- Match the numeric phone regex
`(\+?1?[-.\s]?)?\(?([0-9]{3})\)?[-.\s]?([0-9]{3})[-.\s]?([0-9]{4})`
at the start of the input; returns the matched text.  (The outer optional
group can match the empty string, so it is equivalent to its three inner
greedy optionals.) -/
def phoneAt (s : List Char) : Option (List Char) :=
  cap
    (fun t k =>
      optChar (fun c => c = '+') t fun t1 =>
      optChar (fun c => c = '1') t1 fun t2 =>
      optChar isPhoneDelim t2 fun t3 =>
      optChar (fun c => c = '(') t3 fun t4 =>
      exactChars Char.isDigit 3 t4 fun t5 =>
      optChar (fun c => c = ')') t5 fun t6 =>
      optChar isPhoneDelim t6 fun t7 =>
      exactChars Char.isDigit 3 t7 fun t8 =>
      optChar isPhoneDelim t8 fun t9 =>
      exactChars Char.isDigit 4 t9 k)
    s (fun matched _ => some matched)

/-- First (leftmost) match of the numeric phone pattern. -/
def firstPhoneMatch (clean : List Char) : Option (List Char) := scanA phoneAt clean

/-- Normalisation applied to the first numeric match:
`phoneMatch[0].replace(/\D/g, '')`, then prepend `+1` to a 10-digit number
or `+` to an 11-digit number starting with `1`. -/
def formatNumericPhone (m : List Char) : String :=
  let ds := m.filter Char.isDigit
  if ds.length = 10 then "+1" ++ String.mk ds
  else if ds.length = 11 ∧ ds.head? = some '1' then "+" ++ String.mk ds
  else String.mk ds

/-- Pattern 1 of phone extraction: first numeric match, normalised. -/
def extractPhoneNumeric (clean : List Char) : Option String :=
  (firstPhoneMatch clean).map formatNumericPhone

/-- First-match association-list lookup (JS object property access for the
literal `digitWords` object). -/
def lookupTab : List (String × Char) → String → Option Char
  | [], _ => none
  | (k, v) :: rest, w => if w = k then some v else lookupTab rest w

/-- The `digitWords` object: number words (and voice-recognition homophones)
to digits, in source order. -/
def digitWordTable : List (String × Char) :=
  [("zero", '0'), ("one", '1'), ("two", '2'), ("three", '3'), ("four", '4'),
   ("five", '5'), ("six", '6'), ("seven", '7'), ("eight", '8'), ("nine", '9'),
   ("oh", '0'), ("to", '2'), ("too", '2'), ("for", '4'), ("ate", '8')]

/-- `digitWords[w]`. -/
def digitWordLookup (w : String) : Option Char := lookupTab digitWordTable w

/-- Maximal runs of `\w` characters, as strings.  Because every alternative of
`digitWordsRegex` consists of word characters and is bracketed by `\b` on both
sides, the regex's global matches are exactly the maximal `\w`-runs equal to a
table key. -/
def wordTokensAux : List Char → List Char → List String
  | acc, [] => if acc.isEmpty then [] else [String.mk acc.reverse]
  | acc, c :: rest =>
    if isWordChar c then wordTokensAux (c :: acc) rest
    else if acc.isEmpty then wordTokensAux [] rest
    else String.mk acc.reverse :: wordTokensAux [] rest

/-- All maximal word tokens of the text, in order. -/
def wordTokens (l : List Char) : List String := wordTokensAux [] l

/-- `cleanTranscription.match(digitWordsRegex)`: the word tokens that are
number words (case-insensitively), in order of appearance. -/
def digitWordMatches (clean : List Char) : List String :=
  (wordTokens clean).filter (fun w => (digitWordLookup (lowerStr w)).isSome)

/-- The length of the longest run of adjacent number-word tokens (`cur` is
the length of the run in progress).  This formalises the specification's
notion of "consecutive number-words"; the source itself never checks
adjacency. -/
def maxDigitWordRun : List String → Nat → Nat
  | [], cur => cur
  | w :: ws, cur =>
    if (digitWordLookup (lowerStr w)).isSome then maxDigitWordRun ws (cur + 1)
    else max cur (maxDigitWordRun ws 0)

/-- Pattern 2 of phone extraction: if at least 10 number-word matches exist,
translate the first 10 and accept when the result passes `/^\d{10}$/`. -/
def wordPhone (clean : List Char) : Option String :=
  let ms := digitWordMatches clean
  if 10 ≤ ms.length then
    let ds := (ms.take 10).map (fun w => (digitWordLookup (lowerStr w)).getD 'x')
    if ds.length = 10 ∧ ds.all Char.isDigit then some ("+1" ++ String.mk ds) else none
  else none

/-- Phone extraction: numeric pattern first, then the number-word pattern,
else the empty string. -/
def extractPhone (clean : List Char) : String :=
  match extractPhoneNumeric clean with
  | some p => p
  | none =>
    match wordPhone clean with
    | some p => p
    | none => ""

/-! #### Email extraction -/

/-- The local-part class `[a-zA-Z0-9._%+-]`. -/
def isLocalChar (c : Char) : Bool :=
  c.isAlphanum || c = '.' || c = '_' || c = '%' || c = '+' || c = '-'

/-- The domain class `[a-zA-Z0-9.-]`. -/
def isDomainChar (c : Char) : Bool := c.isAlphanum || c = '.' || c = '-'

/-- Convenience: the character list of a string literal. -/
def strL (s : String) : List Char := s.data

/-- Pattern 1: the standard email regex
`([a-zA-Z0-9._%+-]+@[a-zA-Z0-9.-]+\.[a-zA-Z]{2,})`, matched at the start of
the input; returns the matched text. -/
def emailAt (s : List Char) : Option (List Char) :=
  cap
    (fun t k =>
      greedyRange isLocalChar 1 none t fun t1 =>
      reqChar (fun c => c = '@') t1 fun t2 =>
      greedyRange isDomainChar 1 none t2 fun t3 =>
      reqChar (fun c => c = '.') t3 fun t4 =>
      greedyRange isAsciiLetter 2 none t4 k)
    s (fun matched _ => some matched)

/-- First (leftmost) match of the standard email pattern. -/
def firstEmailMatch (clean : List Char) : Option (List Char) := scanA emailAt clean

/-- The TLD alternation of the voice-email pattern, in source order:
`(com|net|org|edu|gov|co\.uk|io|mil|biz|info)`. -/
def tldWords : List (List Char) :=
  [strL "com", strL "net", strL "org", strL "edu", strL "gov", strL "co.uk",
   strL "io", strL "mil", strL "biz", strL "info"]

/-- Pattern 2: `([a-zA-Z0-9._%+-]+)\s+at\s+([a-zA-Z0-9.-]+)\s+dot\s+(tld)`
(case-insensitive), at the start of the input; returns the three captures. -/
def voiceEmailDotAt (s : List Char) : Option (List Char × List Char × List Char) :=
  cap (greedyRange isLocalChar 1 none) s fun c1 t1 =>
  greedyRange jsWhitespace 1 none t1 fun t2 =>
  litCI (strL "at") t2 fun t3 =>
  greedyRange jsWhitespace 1 none t3 fun t4 =>
  cap (greedyRange isDomainChar 1 none) t4 fun c2 t5 =>
  greedyRange jsWhitespace 1 none t5 fun t6 =>
  litCI (strL "dot") t6 fun t7 =>
  greedyRange jsWhitespace 1 none t7 fun t8 =>
  cap (fun u k => altCI tldWords u k) t8 fun c3 _ =>
  some (c1, c2, c3)

/-- Pattern 3: `([a-zA-Z0-9._%+-]+)\s+at\s+([a-zA-Z0-9.-]+\.[a-zA-Z]{2,})`
(case-insensitive), at the start of the input. -/
def voiceEmailAt (s : List Char) : Option (List Char × List Char) :=
  cap (greedyRange isLocalChar 1 none) s fun c1 t1 =>
  greedyRange jsWhitespace 1 none t1 fun t2 =>
  litCI (strL "at") t2 fun t3 =>
  greedyRange jsWhitespace 1 none t3 fun t4 =>
  cap
    (fun u k =>
      greedyRange isDomainChar 1 none u fun u1 =>
      reqChar (fun c => c = '.') u1 fun u2 =>
      greedyRange isAsciiLetter 2 none u2 k)
    t4 fun c2 _ =>
  some (c1, c2)

/-- Greedy star of `(?:\s+[a-zA-Z])`, with full backtracking; the fuel is an
upper bound on iterations (each consumes at least two characters). -/
def starWsLetter : Nat → List Char → (List Char → Option α) → Option α
  | 0, s, k => k s
  | fuel + 1, s, k =>
    match greedyRange jsWhitespace 1 none s
        (fun t1 =>
          match t1 with
          | c :: t2 => if isAsciiLetter c then starWsLetter fuel t2 k else none
          | [] => none) with
    | some a => some a
    | none => k s

/-- The group `[a-zA-Z]\s+[a-zA-Z](?:\s+[a-zA-Z])*` of pattern 4. -/
def spacedGroup (s : List Char) (k : List Char → Option α) : Option α :=
  reqChar isAsciiLetter s fun t1 =>
  greedyRange jsWhitespace 1 none t1 fun t2 =>
  reqChar isAsciiLetter t2 fun t3 =>
  starWsLetter t3.length t3 k

/-- The group `[a-zA-Z](?:\s+[a-zA-Z])*` of pattern 4. -/
def spacedTail (s : List Char) (k : List Char → Option α) : Option α :=
  reqChar isAsciiLetter s fun t1 => starWsLetter t1.length t1 k

/-- Pattern 4: spaced-out letters
`([a-zA-Z]\s+[a-zA-Z](?:\s+[a-zA-Z])*)\s+at\s+([a-zA-Z](?:\s+[a-zA-Z])*)\s+dot\s+([a-zA-Z](?:\s+[a-zA-Z])*)`
(case-insensitive), at the start of the input. -/
def spacedEmailAt (s : List Char) : Option (List Char × List Char × List Char) :=
  cap spacedGroup s fun c1 t1 =>
  greedyRange jsWhitespace 1 none t1 fun t2 =>
  litCI (strL "at") t2 fun t3 =>
  greedyRange jsWhitespace 1 none t3 fun t4 =>
  cap spacedTail t4 fun c2 t5 =>
  greedyRange jsWhitespace 1 none t5 fun t6 =>
  litCI (strL "dot") t6 fun t7 =>
  greedyRange jsWhitespace 1 none t7 fun t8 =>
  cap spacedTail t8 fun c3 _ =>
  some (c1, c2, c3)

/-- Greedy star of `(?:[-\s][a-zA-Z])` (pattern 5), with backtracking. -/
def starDashLetter : Nat → List Char → (List Char → Option α) → Option α
  | 0, s, k => k s
  | fuel + 1, s, k =>
    match s with
    | a :: b :: t =>
      if (a = '-' || jsWhitespace a) && isAsciiLetter b then
        match starDashLetter fuel t k with
        | some r => some r
        | none => k s
      else k s
    | _ => k s

/-- The group `[a-zA-Z](?:[-\s][a-zA-Z])*` of pattern 5. -/
def spelledGroup (s : List Char) (k : List Char → Option α) : Option α :=
  reqChar isAsciiLetter s fun t1 => starDashLetter t1.length t1 k

/-- Pattern 5: `email\s+is\s+(g)\s+at\s+(g)\s+dot\s+(g)` with
`g = [a-zA-Z](?:[-\s][a-zA-Z])*` (case-insensitive), at the start of the
input. -/
def spelledEmailAt (s : List Char) : Option (List Char × List Char × List Char) :=
  litCI (strL "email") s fun t0 =>
  greedyRange jsWhitespace 1 none t0 fun ta =>
  litCI (strL "is") ta fun tb =>
  greedyRange jsWhitespace 1 none tb fun tc =>
  cap spelledGroup tc fun c1 t1 =>
  greedyRange jsWhitespace 1 none t1 fun t2 =>
  litCI (strL "at") t2 fun t3 =>
  greedyRange jsWhitespace 1 none t3 fun t4 =>
  cap spelledGroup t4 fun c2 t5 =>
  greedyRange jsWhitespace 1 none t5 fun t6 =>
  litCI (strL "dot") t6 fun t7 =>
  greedyRange jsWhitespace 1 none t7 fun t8 =>
  cap spelledGroup t8 fun c3 _ =>
  some (c1, c2, c3)

/-- Email extraction: the five pattern families in source order, first hit
wins, result lower-cased; empty string if none matches. -/
def extractEmail (clean : List Char) : String :=
  match firstEmailMatch clean with
  | some m => lowerStr (String.mk m)
  | none =>
    match scanA voiceEmailDotAt clean with
    | some (c1, c2, c3) => lowerStr (String.mk (c1 ++ '@' :: c2 ++ '.' :: c3))
    | none =>
      match scanA voiceEmailAt clean with
      | some (c1, c2) => lowerStr (String.mk (c1 ++ '@' :: c2))
      | none =>
        match scanA spacedEmailAt clean with
        | some (c1, c2, c3) =>
          let un := c1.filter (fun c => !jsWhitespace c)
          let dom := c2.filter (fun c => !jsWhitespace c)
          let tld := c3.filter (fun c => !jsWhitespace c)
          lowerStr (String.mk (un ++ '@' :: dom ++ '.' :: tld))
        | none =>
          match scanA spelledEmailAt clean with
          | some (c1, c2, c3) =>
            let strip := fun (l : List Char) =>
              l.filter (fun c => !(c = '-' || jsWhitespace c))
            lowerStr (String.mk (strip c1 ++ '@' :: strip c2 ++ '.' :: strip c3))
          | none => ""

/-! #### Name extraction -/

/-- `[A-Z][a-z]+` under the `i` flag: any letter followed by one or more
letters (the flag makes both classes case-blind). -/
def wordCI (s : List Char) (k : List Char → Option α) : Option α :=
  reqChar isAsciiLetter s fun t1 => greedyRange isAsciiLetter 1 none t1 k

/-- `[A-Z][a-z]+` without the `i` flag: an upper-case letter followed by one
or more lower-case letters. -/
def wordCap (s : List Char) (k : List Char → Option α) : Option α :=
  reqChar Char.isUpper s fun t1 => greedyRange Char.isLower 1 none t1 k

/-- `(?:is\s+)?`, greedy. -/
def optIsWs (s : List Char) (k : List Char → Option α) : Option α :=
  optGroup
    (fun u k2 => litCI (strL "is") u fun u1 => greedyRange jsWhitespace 1 none u1 k2)
    s k

/-- `[A-Z][a-z]+(?:\s+[A-Z][a-z]+)?` under the `i` flag. -/
def twoWordsCI (s : List Char) (k : List Char → Option α) : Option α :=
  wordCI s fun t1 =>
  optGroup
    (fun u k2 => greedyRange jsWhitespace 1 none u fun u1 => wordCI u1 k2)
    t1 k

/-- Pattern 1 of name extraction:
`(?:first name|first)\s+(?:is\s+)?([A-Z][a-z]+)(?:.*?(?:last name|last)\s+(?:is\s+)?([A-Z][a-z]+))?`
(case-insensitive), at the start of the input; returns the first-name capture
and the optional last-name capture. -/
def firstLastAt (s : List Char) : Option (List Char × Option (List Char)) :=
  altCI [strL "first name", strL "first"] s fun t1 =>
  greedyRange jsWhitespace 1 none t1 fun t2 =>
  optIsWs t2 fun t3 =>
  cap (fun u k => wordCI u k) t3 fun c1 t4 =>
  match
    lazyRange isDotChar 0 t4 (fun v1 =>
      altCI [strL "last name", strL "last"] v1 fun v2 =>
      greedyRange jsWhitespace 1 none v2 fun v3 =>
      optIsWs v3 fun v4 =>
      cap (fun u k => wordCI u k) v4 fun c2 _ => some c2) with
  | some c2 => some (c1, some c2)
  | none => some (c1, none)

/-- The introduction alternation of patterns 2 and 3:
`(?:my name is|name is|this is|i am|i'm)`. -/
def introWords : List (List Char) :=
  [strL "my name is", strL "name is", strL "this is", strL "i am", strL "i\x27m"]

/-- Pattern 2: introduction followed by a full name
`([A-Z][a-z]+\s+[A-Z][a-z]+(?:\s+[A-Z][a-z]+)?)` (case-insensitive), at the
start of the input. -/
def fullNameAt (s : List Char) : Option (List Char) :=
  altCI introWords s fun t1 =>
  greedyRange jsWhitespace 1 none t1 fun t2 =>
  cap
    (fun u k =>
      wordCI u fun u1 =>
      greedyRange jsWhitespace 1 none u1 fun u2 =>
      twoWordsCI u2 k)
    t2 fun c1 _ => some c1

/-- Pattern 3: introduction followed by a single name `([A-Z][a-z]+)`
(case-insensitive), at the start of the input. -/
def singleNameAt (s : List Char) : Option (List Char) :=
  altCI introWords s fun t1 =>
  greedyRange jsWhitespace 1 none t1 fun t2 =>
  cap (fun u k => wordCI u k) t2 fun c1 _ => some c1

/-- Pattern 4: `(?:with|for|meeting|speaking with|talking to|on behalf of)`
followed by one or two capitalized words (case-insensitive), at the start of
the input. -/
def withNameAt (s : List Char) : Option (List Char) :=
  altCI [strL "with", strL "for", strL "meeting", strL "speaking with",
         strL "talking to", strL "on behalf of"] s fun t1 =>
  greedyRange jsWhitespace 1 none t1 fun t2 =>
  cap (fun u k => twoWordsCI u k) t2 fun c1 _ => some c1

/-- Pattern 5: `(?:hello|hi),?\s+(name)\s+(?:here|calling|speaking)`
(case-insensitive), at the start of the input. -/
def callingAt (s : List Char) : Option (List Char) :=
  altCI [strL "hello", strL "hi"] s fun t1 =>
  optChar (fun c => c = ',') t1 fun t2 =>
  greedyRange jsWhitespace 1 none t2 fun t3 =>
  cap (fun u k => twoWordsCI u k) t3 fun c1 t4 =>
  greedyRange jsWhitespace 1 none t4 fun t5 =>
  altCI [strL "here", strL "calling", strL "speaking"] t5 fun _ => some c1

/-- Pattern 6: `(?:contact name|name for contact|contact)\s+(?:is\s+)?(name)`
(case-insensitive), at the start of the input. -/
def contactNameAt (s : List Char) : Option (List Char) :=
  altCI [strL "contact name", strL "name for contact", strL "contact"] s fun t1 =>
  greedyRange jsWhitespace 1 none t1 fun t2 =>
  optIsWs t2 fun t3 =>
  cap (fun u k => twoWordsCI u k) t3 fun c1 _ => some c1

/-- Pattern 7: `^([A-Z][a-z]+(?:\s+[A-Z][a-z]+)?)` — anchored at the start,
case-sensitive. -/
def firstWordsAt (s : List Char) : Option (List Char) :=
  cap
    (fun u k =>
      wordCap u fun u1 =>
      optGroup
        (fun v k2 => greedyRange jsWhitespace 1 none v fun v1 => wordCap v1 k2)
        u1 k)
    s (fun c1 _ => some c1)

/-- The greeting stoplist used by pattern 7. -/
def commonGreetings : List String :=
  ["Hello", "Hi", "Yes", "No", "Okay", "Please", "Thank", "Sorry", "Excuse"]

/-- Name extraction: the seven pattern families in source order; captures are
re-sanitised as in the source. -/
def extractName (clean : List Char) : String :=
  match scanA firstLastAt clean with
  | some (c1, oc2) =>
    let firstName := sanitizeInputStr (String.mk c1)
    let lastName := sanitizeInputStr (String.mk (oc2.getD []))
    if lastName = "" then firstName else firstName ++ " " ++ lastName
  | none =>
    match scanA fullNameAt clean with
    | some c => sanitizeInputStr (String.mk c)
    | none =>
      match scanA singleNameAt clean with
      | some c => sanitizeInputStr (String.mk c)
      | none =>
        match scanA withNameAt clean with
        | some c => sanitizeInputStr (String.mk c)
        | none =>
          match scanA callingAt clean with
          | some c => sanitizeInputStr (String.mk c)
          | none =>
            match scanA contactNameAt clean with
            | some c => sanitizeInputStr (String.mk c)
            | none =>
              match firstWordsAt clean with
              | some c =>
                let potentialName := sanitizeInputStr (String.mk c)
                if commonGreetings.any
                    (fun w => containsSub (lowerStr potentialName).data (lowerStr w).data)
                then ""
                else potentialName
              | none => ""

/-! #### Company extraction -/

/-- The company-name class `[a-zA-Z\s&.,-]`. -/
def isCompanyChar (c : Char) : Bool :=
  isAsciiLetter c || jsWhitespace c || c = '&' || c = '.' || c = ',' || c = '-'

/-- The company-name class without comma, `[a-zA-Z\s&.-]` (pattern 4). -/
def isCompanyCharNC (c : Char) : Bool :=
  isAsciiLetter c || jsWhitespace c || c = '&' || c = '.' || c = '-'

/-- `[,\s]`. -/
def isCommaWs (c : Char) : Bool := c = ',' || jsWhitespace c

/-- `(?:w1|w2|...|$)`: the literals in order, then end-of-input. -/
def altCIOrEnd (ws : List (List Char)) (s : List Char) (k : List Char → Option α) :
    Option α :=
  match altCI ws s k with
  | some a => some a
  | none => match s with | [] => k [] | _ :: _ => none

/-- The lazy capture `([A-Z][a-zA-Z\s&.,-]+?)` of company patterns 1–3
(case-insensitive). -/
def companyCapture (s : List Char) (k : List Char → Option α) : Option α :=
  reqChar isAsciiLetter s fun t1 => lazyRange isCompanyChar 1 t1 k

/-- Company pattern 1:
`(?:company name|company|organization|business|employer)\s+(?:is\s+)?([A-Z][a-zA-Z\s&.,-]+?)(?:[,\s]*(?:please|phone|email|contact|$))`
(case-insensitive), at the start of the input; returns the capture. -/
def companyP1At (s : List Char) : Option (List Char) :=
  altCI [strL "company name", strL "company", strL "organization", strL "business",
         strL "employer"] s fun t1 =>
  greedyRange jsWhitespace 1 none t1 fun t2 =>
  optIsWs t2 fun t3 =>
  cap companyCapture t3 fun c1 t4 =>
  greedyRange isCommaWs 0 none t4 fun t5 =>
  altCIOrEnd [strL "please", strL "phone", strL "email", strL "contact"] t5 fun _ =>
  some c1

/-- Company pattern 2:
`(?:i work|work|employed)\s+(?:at|for|with)\s+([A-Z][a-zA-Z\s&.,-]+?)(?:[,\s]*(?:and|please|phone|email|contact|$))`
(case-insensitive), at the start of the input. -/
def companyP2At (s : List Char) : Option (List Char) :=
  altCI [strL "i work", strL "work", strL "employed"] s fun t1 =>
  greedyRange jsWhitespace 1 none t1 fun t2 =>
  altCI [strL "at", strL "for", strL "with"] t2 fun t3 =>
  greedyRange jsWhitespace 1 none t3 fun t4 =>
  cap companyCapture t4 fun c1 t5 =>
  greedyRange isCommaWs 0 none t5 fun t6 =>
  altCIOrEnd [strL "and", strL "please", strL "phone", strL "email", strL "contact"]
    t6 fun _ => some c1

/-- Company pattern 3:
`(?:from|representing|on behalf of)\s+([A-Z][a-zA-Z\s&.,-]+?)(?:[,\s]*(?:and|please|phone|email|contact|$))`
(case-insensitive), at the start of the input. -/
def companyP3At (s : List Char) : Option (List Char) :=
  altCI [strL "from", strL "representing", strL "on behalf of"] s fun t1 =>
  greedyRange jsWhitespace 1 none t1 fun t2 =>
  cap companyCapture t2 fun c1 t3 =>
  greedyRange isCommaWs 0 none t3 fun t4 =>
  altCIOrEnd [strL "and", strL "please", strL "phone", strL "email", strL "contact"]
    t4 fun _ => some c1

/-- `(?:\s|$|,|\.|!|\?)`: one whitespace character, or end of input, or one
punctuation character. -/
def endPunct (s : List Char) (k : List Char → Option α) : Option α :=
  match s with
  | [] => k []
  | c :: rest =>
    if jsWhitespace c then k rest
    else if c = ',' || c = '.' || c = '!' || c = '?' then k rest
    else none

/-- Scan carrying the previous character, for patterns anchored by
`(?:^|\s)`; the matcher receives the character immediately before the
current position (`none` at the very start). -/
def scanPrevAux (m : Option Char → List Char → Option α) :
    Option Char → List Char → Option α
  | prev, s =>
    match m prev s with
    | some a => some a
    | none =>
      match s with
      | [] => none
      | c :: rest => scanPrevAux m (some c) rest

/-- Scan a `(?:^|\s)`-anchored pattern from the start of the text. -/
def scanFromStart (m : Option Char → List Char → Option α) (l : List Char) : Option α :=
  scanPrevAux m none l

/-- `(?:^|\s)`: succeed without consuming at the very start, else consume one
whitespace character (which then belongs to the overall match). -/
def startOrWs (prev : Option Char) (s : List Char) (k : List Char → Option α) :
    Option α :=
  match prev with
  | none =>
    match k s with
    | some a => some a
    | none => reqChar jsWhitespace s k
  | some _ => reqChar jsWhitespace s k

/-- The company-suffix alternation of pattern 4, in source order. -/
def companySuffixes : List (List Char) :=
  [strL "Inc", strL "LLC", strL "Corp", strL "Corporation", strL "Company",
   strL "Co.", strL "Ltd", strL "Limited", strL "Solutions", strL "Services",
   strL "Group", strL "Associates", strL "Partners", strL "Consulting"]

/-- Company pattern 4:
`(?:^|\s)([A-Z][a-zA-Z\s&.-]+\s+(?:Inc|LLC|...))(?:\s|$|,|\.|!|\?)`
(case-sensitive); returns the capture. -/
def suffixCompanyAt (prev : Option Char) (s : List Char) : Option (List Char) :=
  startOrWs prev s fun t0 =>
  cap
    (fun u k =>
      reqChar Char.isUpper u fun u1 =>
      greedyRange isCompanyCharNC 1 none u1 fun u2 =>
      greedyRange jsWhitespace 1 none u2 fun u3 =>
      altCS companySuffixes u3 k)
    t0 fun c1 t1 =>
  endPunct t1 fun _ => some c1

/-- Greedy star of `(?:\s+[A-Z][a-zA-Z]+)` (patterns 5 and 6), with
backtracking. -/
def starWsCapWord : Nat → List Char → (List Char → Option α) → Option α
  | 0, s, k => k s
  | fuel + 1, s, k =>
    match greedyRange jsWhitespace 1 none s
        (fun t1 =>
          reqChar Char.isUpper t1 fun t2 =>
          greedyRange isAsciiLetter 1 none t2 fun t3 =>
          starWsCapWord fuel t3 k) with
    | some a => some a
    | none => k s

/-- The capture `[A-Z][a-zA-Z]+(?:\s+[A-Z][a-zA-Z]+)*` of patterns 5 and 6. -/
def capWordsCS (s : List Char) (k : List Char → Option α) : Option α :=
  reqChar Char.isUpper s fun t1 =>
  greedyRange isAsciiLetter 1 none t1 fun t2 =>
  starWsCapWord t2.length t2 k

/-- The trailing words of company pattern 5, in source order. -/
def techSuffixes : List (List Char) :=
  [strL "Technologies", strL "Tech", strL "Systems", strL "Software",
   strL "Digital", strL "Media", strL "Labs", strL "Enterprises"]

/-- The trailing words of company pattern 6, in source order. -/
def industriesSuffixes : List (List Char) :=
  [strL "Industries", strL "International", strL "Global", strL "Worldwide",
   strL "Holdings", strL "Ventures"]

/-- Company patterns 5/6:
`(?:^|\s)([A-Z][a-zA-Z]+(?:\s+[A-Z][a-zA-Z]+)*)\s+(?:suffix...)(?:\s|$|,|\.|!|\?)`
(case-sensitive); returns the capture and the full matched text (used by the
source to recover the suffix word via `match[0].split(' ').pop()`). -/
def wordSuffixCompanyAt (suffixes : List (List Char)) (prev : Option Char)
    (s : List Char) : Option (List Char × List Char) :=
  startOrWs prev s fun t0 =>
  cap capWordsCS t0 fun c1 t1 =>
  greedyRange jsWhitespace 1 none t1 fun t2 =>
  altCS suffixes t2 fun t3 =>
  endPunct t3 fun t4 =>
  some (c1, s.take (s.length - t4.length))

/-- JavaScript `split(' ')`: split on every single space character. -/
def splitSpace (l : List Char) : List (List Char) := l.splitOn ' '

/-- `match[0].split(' ').pop()`: the final space-separated piece of the full
match. -/
def lastSpacePiece (m0 : List Char) : List Char := ((splitSpace m0).getLastD [])

/-- Company extraction: the six pattern families in source order; patterns 5
and 6 rebuild the name as ``​`${m[1]} ${m[0].split(' ').pop()}`​`` before
sanitisation. -/
def extractCompany (clean : List Char) : String :=
  match scanA companyP1At clean with
  | some c1 => String.mk (trimL (sanitizeInputStr (String.mk c1)).data)
  | none =>
    match scanA companyP2At clean with
    | some c1 => String.mk (trimL (sanitizeInputStr (String.mk c1)).data)
    | none =>
      match scanA companyP3At clean with
      | some c1 => String.mk (trimL (sanitizeInputStr (String.mk c1)).data)
      | none =>
        match scanFromStart suffixCompanyAt clean with
        | some c1 => String.mk (trimL (sanitizeInputStr (String.mk c1)).data)
        | none =>
          match scanFromStart (wordSuffixCompanyAt techSuffixes) clean with
          | some (c1, m0) =>
            String.mk (trimL
              (sanitizeInputStr (String.mk (c1 ++ ' ' :: lastSpacePiece m0))).data)
          | none =>
            match scanFromStart (wordSuffixCompanyAt industriesSuffixes) clean with
            | some (c1, m0) =>
              String.mk (trimL
                (sanitizeInputStr (String.mk (c1 ++ ' ' :: lastSpacePiece m0))).data)
            | none => ""

/-- The Field Extractor `parseContactInfo`: sanitise, then run the four
field-extraction pattern families; the sanitised transcript is kept as
`notes`. -/
def parseContactInfo (transcription : String) : ContactData :=
  let clean := sanitizeChars transcription.data
  { name := extractName clean
    phone := extractPhone clean
    email := extractEmail clean
    company := extractCompany clean
    notes := String.mk clean }

end Transcribe

namespace TranscribeValidated

/-! ### The `src/unnamed/part_005` revision of `transcribe.ts`: company
extraction with `validateCompanyName` -/

open Transcribe

/-- The trailing-filler alternation of `trailingWords`
(`/\s+(and|please|...|tried).*$/i`). -/
def trailingStopWords : List String :=
  ["and", "please", "phone", "email", "contact", "my", "her", "his", "their",
   "the", "a", "an", "is", "was", "are", "were", "will", "would", "should",
   "could", "can", "may", "might", "has", "have", "had", "do", "does", "did",
   "get", "got", "go", "goes", "went", "come", "comes", "came", "take",
   "takes", "took", "make", "makes", "made", "see", "sees", "saw", "know",
   "knows", "knew", "think", "thinks", "thought", "say", "says", "said",
   "tell", "tells", "told", "give", "gives", "gave", "put", "puts", "use",
   "uses", "used", "work", "works", "worked", "call", "calls", "called",
   "help", "helps", "helped", "try", "tries", "tried"]

/-- `l` starts with `w`, case-insensitively. -/
def startsWithCI (l : List Char) (w : List Char) : Bool :=
  (l.take w.length).length = w.length
    && ((l.take w.length).zip w).all (fun q => lowerEq q.1 q.2)

/-- `trailingWords` matches at offset `i` of `l`: a whitespace run of length
at least one, immediately followed by one of the filler words, with no line
terminator afterwards (`.*$` must reach the end of the string). -/
def trailingMatchesAt (l : List Char) (i : Nat) : Bool :=
  let s := l.drop i
  let r := (s.takeWhile jsWhitespace).length
  decide (1 ≤ r) && trailingStopWords.any (fun w =>
    startsWithCI (s.drop r) w.data && (s.drop (r + w.data.length)).all isDotChar)

/-- `cleaned.replace(trailingWords, '')`: cut at the leftmost position where
the trailing-filler pattern matches (a non-global replace removes the first,
leftmost match, which here always extends to the end of the string). -/
def stripTrailing (l : List Char) : List Char :=
  match (List.range (l.length + 1)).find? (fun i => trailingMatchesAt l i) with
  | some i => l.take i
  | none => l

/-- The `commonWords` stoplist of `validateCompanyName`. -/
def commonWordsV5 : List String :=
  ["the", "and", "for", "with", "this", "that", "them", "they", "there",
   "their", "then", "than", "when", "where", "what", "which", "who", "why",
   "how", "can", "will", "would", "should", "could", "may", "might", "have",
   "has", "had", "do", "does", "did", "get", "got", "go", "come", "take",
   "make", "see", "know", "think", "say", "tell", "give", "put", "use",
   "work", "call", "help", "try"]

/-- `validateCompanyName`: trim, strip trailing filler, then require 3–25
characters, a non-stopword first word, and at most three words. -/
def validateCompanyName (companyName : String) : Option String :=
  if companyName = "" then none
  else
    let cleaned := stripTrailing (trimL companyName.data)
    if cleaned.length < 3 ∨ 25 < cleaned.length then none
    else
      let firstWord := lowerStr (String.mk ((splitSpace cleaned).headD []))
      if commonWordsV5.contains firstWord then none
      else if 3 < ((splitSpace cleaned).filter (fun w => !w.isEmpty)).length then none
      else some (String.mk cleaned)

/-- `(?:\b|$|[,.])` given the character just before the current position:
a zero-width word boundary, or end of input, or one consumed `,`/`.`. -/
def boundaryEndPunct (prev : Char) (s : List Char) (k : List Char → Option α) :
    Option α :=
  let nextIsWord := match s with | [] => false | c :: _ => isWordChar c
  if isWordChar prev != nextIsWord then k s
  else
    match s with
    | [] => k []
    | c :: rest => if c = ',' || c = '.' then k rest else none

/-- Company pattern 1 of the validated revision:
`(?:company name|company|organization|business|employer)\s+(?:is\s+)?([A-Z][a-zA-Z\s&.-]{2,20})(?:\b|$|[,.])`
(case-insensitive), at the start of the input; returns the capture. -/
def companyP1V5At (s : List Char) : Option (List Char) :=
  altCI [strL "company name", strL "company", strL "organization", strL "business",
         strL "employer"] s fun t1 =>
  greedyRange jsWhitespace 1 none t1 fun t2 =>
  optIsWs t2 fun t3 =>
  cap
    (fun u k => reqChar isAsciiLetter u fun u1 =>
      greedyRange isCompanyCharNC 2 (some 20) u1 k)
    t3 fun c1 t4 =>
  boundaryEndPunct (c1.getLastD 'x') t4 fun _ => some c1

/-- The validated explicit-mention company family: pattern 1's capture passed
through `validateCompanyName` (the draft's company is set exactly when the
validator accepts). -/
def companyFromExplicitMention (clean : List Char) : Option String :=
  (scanA companyP1V5At clean).bind (fun c1 => validateCompanyName (String.mk c1))

end TranscribeValidated

namespace SubmitContact

/-! ### `src/pages/api/submit-contact.ts` -/

/-- The request body (`interface ContactSubmission`); `none` models an absent
field. -/
structure ContactSubmission where
  name : Option String
  phone : Option String
  email : Option String
  company : Option String
  notes : Option String
  deriving DecidableEq

/-- JS truthiness for an optional string field: absent or empty is falsy. -/
def falsyStr : Option String → Bool
  | none => true
  | some s => s = ""

/-- JS `trim` on a `String`. -/
def trimStr (s : String) : String := String.mk (trimL s.data)

/-- The character class `[\d\s\-\(\)]` of the phone validation regex. -/
def isPhoneValidChar (c : Char) : Bool :=
  c.isDigit || jsWhitespace c || c = '-' || c = '(' || c = ')'

/-- The phone validation regex `/^\+?[\d\s\-\(\)]{10,15}$/`. -/
def phoneFormatOk (s : String) : Bool :=
  let body := match s.data with
    | '+' :: rest => rest
    | l => l
  body.all isPhoneValidChar && decide (10 ≤ body.length) && decide (body.length ≤ 15)

/-- The email validation regex `/^[^\s@]+@[^\s@]+\.[^\s@]+$/`: exactly one
`@`, a non-empty local part, no whitespace anywhere, and a dot in the domain
that is neither its first nor its last character. -/
def emailFormatOk (s : String) : Bool :=
  let l := s.data.takeWhile (fun c => c != '@')
  let rest := s.data.drop l.length
  match rest with
  | '@' :: d =>
    !l.isEmpty && l.all (fun c => !jsWhitespace c)
      && d.all (fun c => !jsWhitespace c && c != '@')
      && ((d.drop 1).dropLast).contains '.'
  | _ => false

/-- `validateContactData`: collect the error messages in source order. -/
def validateContactData (data : ContactSubmission) : List String :=
  (if falsyStr data.name || trimStr (data.name.getD "") = "" then
    ["Name is required"]
  else if 100 < (data.name.getD "").length then
    ["Name must be less than 100 characters"]
  else []) ++
  (if falsyStr data.phone || trimStr (data.phone.getD "") = "" then
    ["Phone is required"]
  else if !phoneFormatOk (data.phone.getD "") then
    ["Phone format is invalid"]
  else []) ++
  (match data.email with
   | some e => if e ≠ "" && !emailFormatOk e then ["Email format is invalid"] else []
   | none => []) ++
  (match data.company with
   | some c => if 200 < c.length then ["Company name must be less than 200 characters"] else []
   | none => []) ++
  (match data.notes with
   | some n => if 1000 < n.length then ["Notes must be less than 1000 characters"] else []
   | none => [])

/-- `validateContactData(...).isValid`. -/
def contactDataValid (data : ContactSubmission) : Bool :=
  validateContactData data = []

/-- The sanitized record produced by `sanitizeContactData` (all fields
present, optional ones defaulted to the empty string). -/
structure SanitizedContact where
  name : String
  phone : String
  email : String
  company : String
  notes : String
  deriving DecidableEq

/-- The character class kept by the phone cleaning step
(`replace(/[^\d\+\-\(\)\s]/g, '')`). -/
def isPhoneKeepChar (c : Char) : Bool :=
  c.isDigit || c = '+' || c = '-' || c = '(' || c = ')' || jsWhitespace c

/-- The phone cleaning of `sanitizeContactData`: keep `[\d\+\-\(\)\s]`, trim,
then rewrite a leading `+1` to `1`, strip a leading `+`, or prepend `1` to a
bare 10-character number.  (Under the leading-character guards, replacing the
first occurrence of `"+1"` resp. `"+"` is exactly dropping it from the
front.) -/
def cleanPhoneList (l : List Char) : List Char :=
  let t := trimL (l.filter isPhoneKeepChar)
  match t with
  | '+' :: '1' :: r => '1' :: r
  | '+' :: r => r
  | r => if r.length = 10 then '1' :: r else r

/-- `sanitizeContactData`: phone cleaning plus trimming/length-capping of the
other fields (email lower-cased). -/
def sanitizeContactData (data : ContactSubmission) : SanitizedContact :=
  { name := String.mk ((trimL (data.name.getD "").data).take 100)
    phone := String.mk (cleanPhoneList (data.phone.getD "").data)
    email := match data.email with
      | some e => String.mk ((lowerStr (trimStr e)).data.take 100)
      | none => ""
    company := match data.company with
      | some c => String.mk ((trimL c.data).take 200)
      | none => ""
    notes := match data.notes with
      | some n => String.mk ((trimL n.data).take 1000)
      | none => "" }

/-! #### The webhook delivery sequence of `handler` -/

/-- What the external webhook does on one request: replies with an HTTP
status and body, or the request fails at the network level. -/
inductive UpstreamResult where
  | status (code : Nat) (body : String)
  | netError (msg : String)
  deriving DecidableEq

/-- The error thrown by `axios.post`: the upstream response status (if any
response arrived) and the response data resp. error message. -/
structure AxiosErr where
  status : Option Nat
  data : String
  deriving DecidableEq

/-- `axios.post` with `validateStatus: status => 200 <= status < 400`:
resolves with the status for 2xx–3xx, otherwise throws. -/
def axiosPost : UpstreamResult → Except AxiosErr Nat
  | .status code body =>
    if 200 ≤ code ∧ code < 400 then .ok code else .error ⟨some code, body⟩
  | .netError msg => .error ⟨none, msg⟩

/-- The two delivery variants of `handler`, in attempt order. -/
inductive Variant where
  | urlEncodedForm
  | jsonBody
  deriving DecidableEq

/-- Everything outside the handler's control: session, configuration, what
the webhook does per variant, and whether the local persistence writes
succeed. -/
structure Env where
  session : Bool
  ghlWebhookUrl : Option String
  urlEncodedUpstream : UpstreamResult
  jsonUpstream : UpstreamResult
  workspace : Bool
  dbWritesOk : Bool
  deriving DecidableEq

/-- The HTTP response of `handler` (the fields used by the claims). -/
structure Response where
  status : Nat
  success : Bool
  details : List String
  ghlStatus : Option Nat
  ghlError : Option String
  deriving DecidableEq

/-- The observable outcome of one `handler` run: the response, the webhook
variants attempted (in order), the phone value carried by the webhook
payload, and whether the contact row was persisted. -/
structure Outcome where
  response : Response
  attempts : List Variant
  webhookPhone : Option String
  persisted : Bool
  deriving DecidableEq

/-- The delivery sequence (`try` URL-encoded, on failure `try` JSON, on a
second failure re-`throw` the URL-encoded error) together with the list of
attempted variants. -/
def deliverWebhook (env : Env) : Except AxiosErr Nat × List Variant :=
  match axiosPost env.urlEncodedUpstream with
  | .ok s => (.ok s, [.urlEncodedForm])
  | .error e1 =>
    match axiosPost env.jsonUpstream with
    | .ok s => (.ok s, [.urlEncodedForm, .jsonBody])
    | .error _ => (.error e1, [.urlEncodedForm, .jsonBody])

/-- `handler` for a POST request: authentication, validation, sanitisation,
configuration check, the delivery sequence, then best-effort persistence;
a database failure after a delivered webhook is swallowed and the caller
still sees success. -/
def handler (env : Env) (body : ContactSubmission) : Outcome :=
  if !env.session then
    { response := { status := 401, success := false, details := [],
                    ghlStatus := none, ghlError := none },
      attempts := [], webhookPhone := none, persisted := false }
  else
    let errors := validateContactData body
    if errors ≠ [] then
      { response := { status := 400, success := false, details := errors,
                      ghlStatus := none, ghlError := none },
        attempts := [], webhookPhone := none, persisted := false }
    else
      let contactData := sanitizeContactData body
      match env.ghlWebhookUrl with
      | none =>
        { response := { status := 500, success := false, details := [],
                        ghlStatus := none, ghlError := none },
          attempts := [], webhookPhone := none, persisted := false }
      | some _ =>
        match deliverWebhook env with
        | (.ok s, attempted) =>
          { response := { status := 200, success := true, details := [],
                          ghlStatus := some s, ghlError := none },
            attempts := attempted,
            webhookPhone := some contactData.phone,
            persisted := env.workspace && env.dbWritesOk }
        | (.error e, attempted) =>
          { response := { status := 500, success := false, details := [],
                          ghlStatus := some (e.status.getD 500),
                          ghlError := some e.data },
            attempts := attempted,
            webhookPhone := some contactData.phone,
            persisted := false }

end SubmitContact

namespace Workspace

/-! ### `src/lib/workspace.ts` -/

/-- The workspace role enum. -/
inductive Role where
  | OWNER
  | ADMIN
  | MEMBER
  | VIEWER
  deriving DecidableEq, Fintype

/-- The permitted actions. -/
inductive Action where
  | read
  | write
  | admin
  | delete
  deriving DecidableEq, BEq, Fintype

/-- The fixed role/permission table of `canUserPerformAction`. -/
def permissions : Role → List Action
  | .OWNER => [.read, .write, .admin, .delete]
  | .ADMIN => [.read, .write, .admin]
  | .MEMBER => [.read, .write]
  | .VIEWER => [.read]

/-- `canUserPerformAction`: membership in the role's permission list. -/
def canUserPerformAction (userRole : Role) (action : Action) : Bool :=
  (permissions userRole).contains action

/-- The linear order on roles, least-privileged first. -/
def roleRank : Role → Nat
  | .VIEWER => 0
  | .MEMBER => 1
  | .ADMIN => 2
  | .OWNER => 3

end Workspace

/-! ## Theorems -/

open Transcribe TranscribeValidated SubmitContact Workspace

set_option maxRecDepth 20000

/-- Helper: a successful association-list lookup returns one of the stored
values. -/
theorem lookupTab_mem_value (tbl : List (String × Char)) (w : String) (c : Char)
    (h : lookupTab tbl w = some c) : c ∈ tbl.map Prod.snd := by
  induction tbl with
  | nil => cases h
  | cons p rest ih =>
    rw [lookupTab] at h
    split at h
    · injection h with h2
      subst h2
      simp
    · simpa using Or.inr (ih h)

/-- Helper: every value of the `digitWords` lookup table is a digit. -/
theorem digitWordLookup_isDigit (w : String) (c : Char)
    (h : digitWordLookup w = some c) : c.isDigit = true := by
  have hmem := lookupTab_mem_value digitWordTable w c h
  simp [digitWordTable] at hmem
  rcases hmem with rfl | rfl | rfl | rfl | rfl | rfl | rfl | rfl | rfl | rfl | rfl |
    rfl | rfl | rfl | rfl <;> decide

/-- Helper: `validateCompanyName` only accepts strings of 3 to 25
characters. -/
theorem validateCompanyName_bounds (s c : String)
    (h : validateCompanyName s = some c) : 3 ≤ c.length ∧ c.length ≤ 25 := by
  unfold validateCompanyName at h
  split at h
  · cases h
  · dsimp only at h
    split at h
    · cases h
    · next hlen =>
      split at h
      · cases h
      · split at h
        · cases h
        · obtain rfl : c = String.mk (stripTrailing (trimL s.data)) :=
            (Option.some.inj h).symm
          push_neg at hlen
          exact ⟨hlen.1, hlen.2⟩

/-- C10: in the fixed role-permission table every role may `read`, only
`OWNER` may `delete`, and the permission sets grow with the role order
`VIEWER ≤ MEMBER ≤ ADMIN ≤ OWNER`, so `canUserPerformAction` is monotone in
the role rank. -/
theorem c10_theorem :
    (∀ r : Role, canUserPerformAction r .read = true) ∧
    (∀ r : Role, (canUserPerformAction r .delete = true ↔ r = .OWNER)) ∧
    (∀ (r r2 : Role) (a : Action), roleRank r ≤ roleRank r2 →
      canUserPerformAction r a = true → canUserPerformAction r2 a = true) := by
  decide

/-- C2 (counterexample): on the transcript of end-to-end scenario 1 the
extracted name is `"John Smith phone"`, not `"John Smith"` — sanitization
deletes the comma after `Smith` and the case-insensitive optional third word
of the full-name pattern then absorbs `phone`. -/
theorem c2_counterexample :
    (parseContactInfo
        "My name is John Smith, phone 555-123-4567, email john at gmail dot com").name
      = "John Smith phone" ∧
    (parseContactInfo
        "My name is John Smith, phone 555-123-4567, email john at gmail dot com").name
      ≠ "John Smith" := by
  decide

/-- C2 (amended): for the scenario-1 transcript the Field Extractor returns
name `"John Smith phone"` (the trailing word is absorbed as described in the
counterexample), phone `"+15551234567"` and email `"john@gmail.com"`. -/
theorem c2_theorem :
    (parseContactInfo
        "My name is John Smith, phone 555-123-4567, email john at gmail dot com").name
      = "John Smith phone" ∧
    (parseContactInfo
        "My name is John Smith, phone 555-123-4567, email john at gmail dot com").phone
      = "+15551234567" ∧
    (parseContactInfo
        "My name is John Smith, phone 555-123-4567, email john at gmail dot com").email
      = "john@gmail.com" := by
  refine ⟨?_, ?_, ?_⟩ <;> decide

/-- C3 (counterexample): the transcript `"Contact a+b@x.com now"` contains
the standard email `a+b@x.com` (it fully matches the extractor's own
standard-email pattern), yet the extractor returns `"ab@x.com"`: the
sanitization pass deletes `+` and thereby alters which email is returned. -/
theorem c3_counterexample :
    firstEmailMatch (strL "a+b@x.com") = some (strL "a+b@x.com") ∧
    containsSub (strL "Contact a+b@x.com now") (strL "a+b@x.com") = true ∧
    (parseContactInfo "Contact a+b@x.com now").email = "ab@x.com" ∧
    (parseContactInfo "Contact a+b@x.com now").email ≠ lowerStr "a+b@x.com" := by
  refine ⟨?_, ?_, ?_, ?_⟩ <;> decide

/-- C3 (amended): for every transcript, the Field Extractor's email is the
leftmost standard-pattern match of the **sanitized** transcript, lower-cased;
because sanitization deletes characters such as `+` and `%` and matching is
leftmost-longest, this may differ from an email embedded in the raw
transcript. -/
theorem c3_theorem (t : String) (m : List Char)
    (h : firstEmailMatch (sanitizeChars t.data) = some m) :
    (parseContactInfo t).email = lowerStr (String.mk m) := by
  simp [parseContactInfo, extractEmail, h]

/-- Witness for C3's theorem at a concrete transcript. -/
theorem c3_witness :
    firstEmailMatch (sanitizeChars (String.data "write to JOHN.doe@Gmail.COM today"))
      = some (strL "JOHN.doe@Gmail.COM") ∧
    (parseContactInfo "write to JOHN.doe@Gmail.COM today").email
      = "john.doe@gmail.com" := by
  refine ⟨by decide, ?_⟩
  rw [c3_theorem ("write to JOHN.doe@Gmail.COM today") (strL "JOHN.doe@Gmail.COM")
    (by decide)]
  decide

/-- C4: whenever the first (leftmost) match of the numeric phone pattern on
the sanitized transcript carries exactly 10 digits, the Field Extractor sets
the draft's phone to `"+1"` immediately followed by those 10 digits. -/
theorem c4_theorem (t : String) (m : List Char)
    (h1 : firstPhoneMatch (sanitizeChars t.data) = some m)
    (h2 : (m.filter Char.isDigit).length = 10) :
    (parseContactInfo t).phone = "+1" ++ String.mk (m.filter Char.isDigit) := by
  simp [parseContactInfo, extractPhone, extractPhoneNumeric, h1, formatNumericPhone, h2]

/-- Witness for C4's theorem at a concrete transcript. -/
theorem c4_witness :
    firstPhoneMatch (sanitizeChars (String.data "call 555-123-4567 now"))
      = some (strL " 555-123-4567") ∧
    (parseContactInfo "call 555-123-4567 now").phone = "+15551234567" := by
  refine ⟨by decide, ?_⟩
  rw [c4_theorem ("call 555-123-4567 now") (strL " 555-123-4567") (by decide) (by decide)]
  decide

/-- C6: whenever the validated explicit-mention company family (pattern 1 of
the `part_005` revision composed with `validateCompanyName`) produces the
draft's company, the returned string has between 3 and 25 characters. -/
theorem c6_theorem (clean : List Char) (c : String)
    (h : companyFromExplicitMention clean = some c) :
    3 ≤ c.length ∧ c.length ≤ 25 := by
  unfold companyFromExplicitMention at h
  match hscan : scanA companyP1V5At clean with
  | none => rw [hscan] at h; cases h
  | some c1 =>
    rw [hscan] at h
    exact validateCompanyName_bounds (String.mk c1) c h

/-- C5 (counterexample): in this transcript no two number-words are adjacent
(the longest consecutive run has length 1), and the numeric pattern finds no
match, yet the extractor still assembles a phone from the ten scattered
number-words — the code counts number-word matches anywhere, not consecutive
ones. -/
theorem c5_counterexample :
    maxDigitWordRun
        (wordTokens (sanitizeChars (String.data
          "one cat two dog three fish four bird five cow six pig seven hen eight goat nine duck zero")))
        0 = 1 ∧
    firstPhoneMatch (sanitizeChars (String.data
        "one cat two dog three fish four bird five cow six pig seven hen eight goat nine duck zero"))
      = none ∧
    (parseContactInfo
        "one cat two dog three fish four bird five cow six pig seven hen eight goat nine duck zero").phone
      = "+11234567890" ∧
    ("+11234567890" : String) ≠ "" := by
  refine ⟨by decide, by decide, ?_, by decide⟩
  decide

/-- C5 (amended): when the numeric phone pattern finds no match, the Field
Extractor collects the number-word tokens appearing **anywhere** in the
transcript (not necessarily consecutive); if there are at least 10 of them it
sets the phone to `"+1"` followed by the translation of the first 10 (which
is always exactly 10 digits), and with fewer than 10 number-words the phone
stays empty. -/
theorem c5_theorem (t : String)
    (hnum : firstPhoneMatch (sanitizeChars t.data) = none) :
    (10 ≤ (digitWordMatches (sanitizeChars t.data)).length →
      (parseContactInfo t).phone =
        "+1" ++ String.mk (((digitWordMatches (sanitizeChars t.data)).take 10).map
          (fun w => (digitWordLookup (lowerStr w)).getD 'x'))) ∧
    ((digitWordMatches (sanitizeChars t.data)).length < 10 →
      (parseContactInfo t).phone = "") := by
  constructor
  · intro h10
    have hwp : wordPhone (sanitizeChars t.data) =
        some ("+1" ++ String.mk (((digitWordMatches (sanitizeChars t.data)).take 10).map
          (fun w => (digitWordLookup (lowerStr w)).getD 'x'))) := by
      unfold wordPhone
      rw [if_pos h10, if_pos ?side]
      case side =>
        constructor
        · rw [List.length_map, List.length_take]
          omega
        · rw [List.all_eq_true]
          intro d hd
          rw [List.mem_map] at hd
          obtain ⟨w, hw, rfl⟩ := hd
          have hw2 : w ∈ digitWordMatches (sanitizeChars t.data) :=
            List.mem_of_mem_take hw
          unfold digitWordMatches at hw2
          have hsome := (List.mem_filter.mp hw2).2
          obtain ⟨c, hcv⟩ := Option.isSome_iff_exists.mp hsome
          rw [hcv]
          exact digitWordLookup_isDigit _ _ hcv
    simp [parseContactInfo, extractPhone, extractPhoneNumeric, hnum, hwp]
  · intro hlt
    have hwp : wordPhone (sanitizeChars t.data) = none := by
      unfold wordPhone
      rw [if_neg (by omega)]
    simp [parseContactInfo, extractPhone, extractPhoneNumeric, hnum, hwp]

/-- Witness for C5's amended theorem at a concrete transcript. -/
theorem c5_witness :
    firstPhoneMatch (sanitizeChars (String.data
        "five five five one two three four five six seven yes")) = none ∧
    10 ≤ (digitWordMatches (sanitizeChars (String.data
        "five five five one two three four five six seven yes"))).length ∧
    (parseContactInfo "five five five one two three four five six seven yes").phone
      = "+15551234567" := by
  refine ⟨by decide, by decide, ?_⟩
  rw [(c5_theorem ("five five five one two three four five six seven yes") (by decide)).1
    (by decide)]
  decide

/-- Witness for C6's theorem at a concrete transcript. -/
theorem c6_witness :
    companyFromExplicitMention (sanitizeChars (String.data "my company is Acme Corp"))
      = some "Acme Corp" ∧
    (3 ≤ ("Acme Corp" : String).length ∧ ("Acme Corp" : String).length ≤ 25) := by
  exact ⟨by decide,
    c6_theorem (sanitizeChars (String.data "my company is Acme Corp")) "Acme Corp"
      (by decide)⟩

/-- C1 (counterexample): when both delivery variants fail (URL-encoded
upstream replies 500 with body `"primary-error-body"`, JSON upstream replies
502 with body `"fallback-error-body"`), the handler surfaces the **first**
variant's error — status 500 and body `"primary-error-body"` — not the last
attempted variant's, because the source re-throws `urlEncodedError` after the
JSON fallback also fails. -/
theorem c1_counterexample :
    (handler
        { session := true, ghlWebhookUrl := some "https://webhook",
          urlEncodedUpstream := .status 500 "primary-error-body",
          jsonUpstream := .status 502 "fallback-error-body",
          workspace := true, dbWritesOk := true }
        { name := some "John Smith", phone := some "+15551234567",
          email := none, company := none, notes := none }).attempts
      = [Variant.urlEncodedForm, Variant.jsonBody] ∧
    (handler
        { session := true, ghlWebhookUrl := some "https://webhook",
          urlEncodedUpstream := .status 500 "primary-error-body",
          jsonUpstream := .status 502 "fallback-error-body",
          workspace := true, dbWritesOk := true }
        { name := some "John Smith", phone := some "+15551234567",
          email := none, company := none, notes := none }).response.ghlError
      = some "primary-error-body" ∧
    (handler
        { session := true, ghlWebhookUrl := some "https://webhook",
          urlEncodedUpstream := .status 500 "primary-error-body",
          jsonUpstream := .status 502 "fallback-error-body",
          workspace := true, dbWritesOk := true }
        { name := some "John Smith", phone := some "+15551234567",
          email := none, company := none, notes := none }).response.ghlError
      ≠ some "fallback-error-body" := by
  refine ⟨by decide, by decide, by decide⟩

/-- C1 (amended): the first variant that returns a success status (2xx–3xx)
short-circuits the sequence — the JSON variant is never attempted after a
URL-encoded success — and when **all** variants fail the handler surfaces the
**first** (primary URL-encoded) variant's error to the caller, with that
variant's upstream status and body. -/
theorem c1_theorem (env : Env) (body : ContactSubmission)
    (hs : env.session = true) (hv : contactDataValid body = true)
    (u : String) (hu : env.ghlWebhookUrl = some u) :
    (∀ s : Nat, axiosPost env.urlEncodedUpstream = .ok s →
      (handler env body).attempts = [Variant.urlEncodedForm] ∧
      (handler env body).response.status = 200 ∧
      (handler env body).response.ghlStatus = some s) ∧
    (∀ e1 e2 : AxiosErr, axiosPost env.urlEncodedUpstream = .error e1 →
      axiosPost env.jsonUpstream = .error e2 →
      (handler env body).attempts = [Variant.urlEncodedForm, Variant.jsonBody] ∧
      (handler env body).response.status = 500 ∧
      (handler env body).response.ghlError = some e1.data ∧
      (handler env body).response.ghlStatus = some (e1.status.getD 500)) := by
  have hval : validateContactData body = [] := by
    simpa [contactDataValid] using hv
  constructor
  · intro s hok
    simp [handler, hs, hval, hu, deliverWebhook, hok]
  · intro e1 e2 h1 h2
    simp [handler, hs, hval, hu, deliverWebhook, h1, h2]

/-- Witness for C1's amended theorem, exercising both the short-circuit
branch and the all-variants-fail branch at concrete inputs. -/
theorem c1_witness :
    ((handler
        { session := true, ghlWebhookUrl := some "https://webhook",
          urlEncodedUpstream := .status 204 "ok", jsonUpstream := .status 200 "ok",
          workspace := true, dbWritesOk := true }
        { name := some "John Smith", phone := some "+15551234567",
          email := none, company := none, notes := none }).attempts
      = [Variant.urlEncodedForm]) ∧
    ((handler
        { session := true, ghlWebhookUrl := some "https://webhook",
          urlEncodedUpstream := .netError "timeout", jsonUpstream := .status 404 "nf",
          workspace := true, dbWritesOk := true }
        { name := some "John Smith", phone := some "+15551234567",
          email := none, company := none, notes := none }).response.ghlError
      = some "timeout") := by
  have hA := c1_theorem
    { session := true, ghlWebhookUrl := some "https://webhook",
      urlEncodedUpstream := .status 204 "ok", jsonUpstream := .status 200 "ok",
      workspace := true, dbWritesOk := true }
    { name := some "John Smith", phone := some "+15551234567",
      email := none, company := none, notes := none }
    rfl (by decide) "https://webhook" rfl
  have hB := c1_theorem
    { session := true, ghlWebhookUrl := some "https://webhook",
      urlEncodedUpstream := .netError "timeout", jsonUpstream := .status 404 "nf",
      workspace := true, dbWritesOk := true }
    { name := some "John Smith", phone := some "+15551234567",
      email := none, company := none, notes := none }
    rfl (by decide) "https://webhook" rfl
  exact ⟨(hA.1 204 rfl).1,
    ((hB.2 ⟨none, "timeout"⟩ ⟨some 404, "nf"⟩ rfl rfl).2.2).1⟩

/-- C7: submitting a contact whose phone is `"abc"` (an invalid format) makes
the handler return HTTP 400 carrying the validation message before any
webhook variant is attempted. -/
theorem c7_theorem (env : Env) (body : ContactSubmission)
    (hs : env.session = true) (hphone : body.phone = some "abc") :
    (handler env body).response.status = 400 ∧
    (handler env body).attempts = [] ∧
    "Phone format is invalid" ∈ (handler env body).response.details := by
  have hmem : "Phone format is invalid" ∈ validateContactData body := by
    unfold validateContactData
    rw [hphone]
    have h2 : (if falsyStr (some "abc") || trimStr ((some "abc").getD "") = "" then
          ["Phone is required"]
        else if !phoneFormatOk ((some "abc").getD "") then ["Phone format is invalid"]
        else []) = ["Phone format is invalid"] := by decide
    rw [h2]
    simp
  have hne : validateContactData body ≠ [] := by
    intro h0
    rw [h0] at hmem
    cases hmem
  have hh : handler env body =
      { response := { status := 400, success := false,
                      details := validateContactData body,
                      ghlStatus := none, ghlError := none },
        attempts := [], webhookPhone := none, persisted := false } := by
    unfold handler
    rw [hs]
    simp [hne]
  rw [hh]
  exact ⟨rfl, rfl, hmem⟩

/-- Witness for C7's theorem at a concrete environment and body. -/
theorem c7_witness :
    (handler
        { session := true, ghlWebhookUrl := some "https://webhook",
          urlEncodedUpstream := .status 200 "ok", jsonUpstream := .status 200 "ok",
          workspace := true, dbWritesOk := true }
        { name := some "John Smith", phone := some "abc",
          email := none, company := none, notes := none }).response.status = 400 ∧
    (handler
        { session := true, ghlWebhookUrl := some "https://webhook",
          urlEncodedUpstream := .status 200 "ok", jsonUpstream := .status 200 "ok",
          workspace := true, dbWritesOk := true }
        { name := some "John Smith", phone := some "abc",
          email := none, company := none, notes := none }).attempts = [] := by
  have h := c7_theorem
    { session := true, ghlWebhookUrl := some "https://webhook",
      urlEncodedUpstream := .status 200 "ok", jsonUpstream := .status 200 "ok",
      workspace := true, dbWritesOk := true }
    { name := some "John Smith", phone := some "abc",
      email := none, company := none, notes := none } rfl rfl
  exact ⟨h.1, h.2.1⟩

/-- C8: when the webhook delivery succeeds but the local persistence step
fails (workspace present, database writes failing), the handler still reports
success — HTTP 200 with `success: true` — and the contact is simply not
persisted. -/
theorem c8_theorem (env : Env) (body : ContactSubmission)
    (hs : env.session = true) (hv : contactDataValid body = true)
    (u : String) (hu : env.ghlWebhookUrl = some u)
    (s : Nat) (att : List Variant) (hdel : deliverWebhook env = (.ok s, att))
    (hdb : env.dbWritesOk = false) :
    (handler env body).response.status = 200 ∧
    (handler env body).response.success = true ∧
    (handler env body).persisted = false := by
  have hval : validateContactData body = [] := by
    simpa [contactDataValid] using hv
  simp [handler, hs, hval, hu, hdel, hdb]

/-- Witness for C8's theorem at a concrete environment and body. -/
theorem c8_witness :
    (handler
        { session := true, ghlWebhookUrl := some "https://webhook",
          urlEncodedUpstream := .status 200 "ok", jsonUpstream := .status 200 "ok",
          workspace := true, dbWritesOk := false }
        { name := some "John Smith", phone := some "+15551234567",
          email := none, company := none, notes := none }).response.success = true ∧
    (handler
        { session := true, ghlWebhookUrl := some "https://webhook",
          urlEncodedUpstream := .status 200 "ok", jsonUpstream := .status 200 "ok",
          workspace := true, dbWritesOk := false }
        { name := some "John Smith", phone := some "+15551234567",
          email := none, company := none, notes := none }).persisted = false := by
  have h := c8_theorem
    { session := true, ghlWebhookUrl := some "https://webhook",
      urlEncodedUpstream := .status 200 "ok", jsonUpstream := .status 200 "ok",
      workspace := true, dbWritesOk := false }
    { name := some "John Smith", phone := some "+15551234567",
      email := none, company := none, notes := none }
    rfl (by decide) "https://webhook" rfl 200 [Variant.urlEncodedForm] rfl rfl
  exact ⟨h.2.1, h.2.2⟩

/-- Helper: trimming only removes characters, so counts do not increase. -/
theorem count_trimL_le (l : List Char) (a : Char) : (trimL l).count a ≤ l.count a := by
  unfold trimL
  rw [List.count_reverse]
  calc ((l.dropWhile jsWhitespace).reverse.dropWhile jsWhitespace).count a
      ≤ (l.dropWhile jsWhitespace).reverse.count a :=
        (List.dropWhile_sublist jsWhitespace).count_le a
    _ = (l.dropWhile jsWhitespace).count a := List.count_reverse a _
    _ ≤ l.count a := (List.dropWhile_sublist jsWhitespace).count_le a

/-- Helper: a phone accepted by the validation regex
`/^\+?[\d\s\-\(\)]{10,15}$/` contains at most one `+`, and the phone-cleaning
pipeline never adds one. -/
theorem count_plus_le_one (p : String) (hp : phoneFormatOk p = true) :
    (trimL (p.data.filter isPhoneKeepChar)).count '+' ≤ 1 := by
  have hdata : p.data.count '+' ≤ 1 := by
    unfold phoneFormatOk at hp
    dsimp only at hp
    simp only [Bool.and_eq_true, decide_eq_true_eq] at hp
    split at hp
    · next rest heq =>
      rw [heq, List.count_cons_self]
      have hz : rest.count '+' = 0 := by
        rw [List.count_eq_zero]
        intro hmem
        have hvalid := List.all_eq_true.mp hp.1.1 '+' hmem
        simp [isPhoneValidChar, jsWhitespace] at hvalid
      omega
    · have hz : p.data.count '+' = 0 := by
        rw [List.count_eq_zero]
        intro hmem
        have hvalid := List.all_eq_true.mp hp.1.1 '+' hmem
        simp [isPhoneValidChar, jsWhitespace] at hvalid
      omega
  calc (trimL (p.data.filter isPhoneKeepChar)).count '+'
      ≤ (p.data.filter isPhoneKeepChar).count '+' := count_trimL_le _ _
    _ ≤ p.data.count '+' := (List.filter_sublist p.data).count_le '+'
    _ ≤ 1 := hdata

/-- Helper: if the cleaned-and-trimmed phone holds at most one `+`, the
result of `cleanPhoneList` never starts with `+`. -/
theorem cleanPhoneList_no_plus (l : List Char)
    (h : (trimL (l.filter isPhoneKeepChar)).count '+' ≤ 1) :
    startsWithL (cleanPhoneList l) ['+'] = false := by
  simp only [cleanPhoneList]
  split
  · rfl
  · next r hmiss heq =>
    rw [heq, List.count_cons_self] at h
    have hz : r.count '+' = 0 := by omega
    have hmem := List.count_eq_zero.mp hz
    cases r with
    | nil => rfl
    | cons b bs =>
      have hb : ¬ b = '+' := fun hbe => hmem (hbe ▸ List.mem_cons_self b bs)
      simp [startsWithL, hb]
  · next hne1 hne2 =>
    split
    · rfl
    · rcases hT : trimL (List.filter isPhoneKeepChar l) with _ | ⟨c, cs⟩
      · rfl
      · have hc : ¬ c = '+' := fun hce => hne2 cs (hce ▸ hT)
        simp [startsWithL, hc]

/-- Helper: digits are not JavaScript whitespace. -/
theorem digit_not_ws (c : Char) (h : c.isDigit = true) : jsWhitespace c = false := by
  cases hws : jsWhitespace c with
  | false => rfl
  | true =>
    exfalso
    simp only [jsWhitespace, Bool.or_eq_true, decide_eq_true_eq] at hws
    rcases hws with ((((((rfl | rfl) | rfl) | rfl) | rfl) | rfl) | rfl) | rfl <;>
      exact absurd h (by decide)

/-- Helper: dropping leading whitespace from a whitespace-free list is the
identity. -/
theorem dropWhile_ws_eq_self (l : List Char) (h : ∀ c ∈ l, jsWhitespace c = false) :
    l.dropWhile jsWhitespace = l := by
  cases l with
  | nil => rfl
  | cons a as =>
    have ha := h a (List.mem_cons_self a as)
    simp [List.dropWhile_cons, ha]

/-- Helper: trimming a whitespace-free list is the identity. -/
theorem trimL_eq_self (l : List Char) (h : ∀ c ∈ l, jsWhitespace c = false) :
    trimL l = l := by
  unfold trimL
  rw [dropWhile_ws_eq_self l h]
  rw [dropWhile_ws_eq_self l.reverse (fun c hc => h c (List.mem_reverse.mp hc))]
  exact List.reverse_reverse l

/-- Helper: on `+1` followed by bare digits, the phone cleaning rewrites the
leading `+1` to `1`. -/
theorem cleanPhone_plus1 (ds : List Char)
    (hd : ds.all Char.isDigit = true) :
    cleanPhoneList ('+' :: '1' :: ds) = '1' :: ds := by
  unfold cleanPhoneList
  have hf : ('+' :: '1' :: ds).filter isPhoneKeepChar = '+' :: '1' :: ds := by
    apply List.filter_eq_self.mpr
    intro a ha
    simp only [List.mem_cons] at ha
    rcases ha with rfl | rfl | ha
    · decide
    · decide
    · have hdig := List.all_eq_true.mp hd a ha
      simp [isPhoneKeepChar, hdig]
  have ht : trimL ('+' :: '1' :: ds) = '+' :: '1' :: ds := by
    apply trimL_eq_self
    intro c hc
    simp only [List.mem_cons] at hc
    rcases hc with rfl | rfl | hc
    · decide
    · decide
    · exact digit_not_ws c (List.all_eq_true.mp hd c hc)
  rw [hf, ht]
  rfl

/-- Helper: the phone validation segment of `validateContactData` forces the
phone to satisfy the format regex. -/
theorem valid_phone_ok (body : ContactSubmission) (hv : contactDataValid body = true) :
    phoneFormatOk (body.phone.getD "") = true := by
  have hval : validateContactData body = [] := by
    simpa [contactDataValid] using hv
  unfold validateContactData at hval
  rw [List.append_eq_nil, List.append_eq_nil, List.append_eq_nil,
    List.append_eq_nil] at hval
  have hseg := hval.1.1.1.2
  split at hseg
  · simp at hseg
  · simp at hseg
    exact hseg

/-- Helper: the phone delivered in the webhook payload, when a payload is
built at all, is exactly the sanitised phone. -/
theorem handler_webhookPhone (env : Env) (body : ContactSubmission) :
    (handler env body).webhookPhone = none ∨
    (handler env body).webhookPhone = some (sanitizeContactData body).phone := by
  unfold handler
  cases henv : env.session
  · simp
  · by_cases hval : validateContactData body = []
    · rcases hurl : env.ghlWebhookUrl with _ | u
      · simp [hval, hurl]
      · rcases hdel : deliverWebhook env with ⟨res, att⟩
        rcases res with s | e
        · simp [hval, hurl, hdel]
        · simp [hval, hurl, hdel]
    · simp [hval]

/-- C9: for every submission that passes validation, the phone delivered to
the CRM webhook (and persisted) never begins with `+`: `sanitizeContactData`
rewrites a leading `+1` to `1`, strips any other leading `+`, and in
particular converts the extractor's `+1XXXXXXXXXX` form to `1XXXXXXXXXX`;
the handler's webhook payload carries exactly this sanitised phone. -/
theorem c9_theorem (body : ContactSubmission) (hv : contactDataValid body = true) :
    startsWithL (sanitizeContactData body).phone.data ['+'] = false ∧
    (∀ ds : String, body.phone = some ("+1" ++ ds) → ds.data.length = 10 →
      ds.data.all Char.isDigit = true →
      (sanitizeContactData body).phone = "1" ++ ds) ∧
    (∀ env : Env, (handler env body).webhookPhone = none ∨
      (handler env body).webhookPhone = some (sanitizeContactData body).phone) := by
  refine ⟨?_, ?_, fun env => handler_webhookPhone env body⟩
  · show startsWithL (cleanPhoneList (body.phone.getD "").data) ['+'] = false
    exact cleanPhoneList_no_plus _ (count_plus_le_one _ (valid_phone_ok body hv))
  · intro ds hph h10 hdig
    show String.mk (cleanPhoneList (body.phone.getD "").data) = "1" ++ ds
    rw [hph]
    simp only [Option.getD_some]
    have hdat : ("+1" ++ ds).data = '+' :: '1' :: ds.data := by
      rw [String.data_append]
      rfl
    rw [hdat, cleanPhone_plus1 ds.data hdig]
    obtain ⟨l⟩ := ds
    rfl

/-- Witness for C9's theorem at a concrete submission. -/
theorem c9_witness :
    contactDataValid
      { name := some "John Smith", phone := some "+15551234567",
        email := none, company := none, notes := none } = true ∧
    startsWithL
      (sanitizeContactData
        { name := some "John Smith", phone := some "+15551234567",
          email := none, company := none, notes := none }).phone.data ['+'] = false ∧
    (sanitizeContactData
        { name := some "John Smith", phone := some "+15551234567",
          email := none, company := none, notes := none }).phone
      = "1" ++ "5551234567" := by
  have h := c9_theorem
    { name := some "John Smith", phone := some "+15551234567",
      email := none, company := none, notes := none } (by decide)
  exact ⟨by decide, h.1, h.2.1 "5551234567" rfl (by decide) (by decide)⟩

end VoiceScheduler
